import Mathlib

/-!
Verification of the parametric g-formula notebooks.

This file shallowly embeds the code of the repository's notebooks:
the conditional-recoding idioms of the data-management tutorial, the
`simulate_data` function of the simulation tutorial, and the g-formula /
bootstrap cells of the Chapter-13 notebook.  The `TimeFixedGFormula`
object of the external zEpid library is not part of the repository, so
its behaviour is modelled from the specification (definitions marked
"Modelled from the spec").  Random draws made by external random-variate
collaborators are passed in explicitly as streams of realised values.
-/

/- ## Part 1: conditional recoding (data-management notebook)

Column entries are `Option ℚ`: `none` models a missing (NaN) entry.
A comparison against a missing value is false, as in numpy/pandas. -/

/-- Source `df['age0'] > 50`: true only on present values strictly above 50. -/
def gt50 : Option ℚ → Bool
  | none => false
  | some q => decide (50 < q)

/-- Source `df['age0'] <= 50`: true only on present values at most 50. -/
def le50 : Option ℚ → Bool
  | none => false
  | some q => decide (q ≤ 50)

/-- Source `np.where(df['age0'] > 50, 50, df['age0'])`: entrywise select. -/
def age2_numpy (c : List (Option ℚ)) : List (Option ℚ) :=
  c.map (fun v => if gt50 v then some 50 else v)

/-- Source `df.loc[mask, col] = value`: overwrite the entries of `col`
selected by the mask (computed from the reference column `c`), keep the rest. -/
def locAssign (mask : Option ℚ → Bool) (newv : Option ℚ → Option ℚ)
    (col c : List (Option ℚ)) : List (Option ℚ) :=
  List.zipWith (fun v cv => if mask cv then newv cv else v) col c

/-- Source cell: create `age2_pandas` as a fresh (all-missing) column, then
`df.loc[df['age0'] > 50, 'age2_pandas'] = 50` and
`df.loc[df['age0'] <= 50, 'age2_pandas'] = df['age0']`. -/
def age2_pandas (c : List (Option ℚ)) : List (Option ℚ) :=
  locAssign le50 (fun cv => cv)
    (locAssign gt50 (fun _ => some 50) (c.map (fun _ => none)) c) c

/- ## Part 2: the simulation notebook (`simulate_data`)

The external random-variate collaborator is modelled by explicit streams of
realised draws: `w i`, `a i` are the Bernoulli outcomes for `W` and `A`
(the Bernoulli probability of `a i` is `logistic.cdf (-3 + 3*W - 1.5*L)`,
computed inside the collaborator), `l i`, `e0 i`, `e1 i` are the normal
draws used for `L` and the two noise terms. -/

/-- Realised random draws consumed by one call of `simulate_data`. -/
structure Streams where
  w : ℕ → Bool
  l : ℕ → ℚ
  a : ℕ → Bool
  e0 : ℕ → ℚ
  e1 : ℕ → ℚ

/-- Numeric value of a 0/1 Bernoulli outcome. -/
def bit (b : Bool) : ℚ := if b then 1 else 0

/-- Source `df['Y0'] = 2*df['W'] + 6*df['L'] + 0.3*df['W']*df['L'] + 5*noise`. -/
def y0val (w l e : ℚ) : ℚ := 2*w + 6*l + (3/10)*w*l + 5*e

/-- Source `df['Y1'] = -10 + 2*df['W'] + 6*df['L'] + 0.3*df['W']*df['L'] + 5*noise`. -/
def y1val (w l e : ℚ) : ℚ := -10 + 2*w + 6*l + (3/10)*w*l + 5*e

/-- Source `df['Y'] = df['A']*df['Y1'] + (1 - df['A'])*df['Y0']`. -/
def yObs (a y1 y0 : ℚ) : ℚ := a*y1 + (1 - a)*y0

/-- Column `W` of the simulated frame. -/
def wcol (s : Streams) (n : ℕ) : List ℚ := (List.range n).map (fun i => bit (s.w i))

/-- Column `L` of the simulated frame. -/
def lcol (s : Streams) (n : ℕ) : List ℚ := (List.range n).map s.l

/-- Column `A` of the simulated frame. -/
def acol (s : Streams) (n : ℕ) : List ℚ := (List.range n).map (fun i => bit (s.a i))

/-- Column `Y0` of the simulated frame. -/
def y0col (s : Streams) (n : ℕ) : List ℚ :=
  (List.range n).map (fun i => y0val (bit (s.w i)) (s.l i) (s.e0 i))

/-- Column `Y1` of the simulated frame. -/
def y1col (s : Streams) (n : ℕ) : List ℚ :=
  (List.range n).map (fun i => y1val (bit (s.w i)) (s.l i) (s.e1 i))

/-- Column `Y` of the simulated frame, by counterfactual consistency. -/
def ycol (s : Streams) (n : ℕ) : List ℚ :=
  (List.range n).map (fun i =>
    yObs (bit (s.a i)) (y1val (bit (s.w i)) (s.l i) (s.e1 i))
      (y0val (bit (s.w i)) (s.l i) (s.e0 i)))

/-- The data frame built inside `simulate_data`, columns in insertion order. -/
def simDF (s : Streams) (n : ℕ) : List (String × List ℚ) :=
  [("W", wcol s n), ("L", lcol s n), ("A", acol s n),
   ("Y0", y0col s n), ("Y1", y1col s n), ("Y", ycol s n)]

/-- Source `df[['Y', 'A', 'W', 'L']]`: select columns by name, in the given order. -/
def selectCols (df : List (String × List ℚ)) (names : List String) :
    List (String × List ℚ) :=
  names.filterMap (fun nm => (df.lookup nm).map (fun c => (nm, c)))

/-- A Python numeric argument: an `int` or a `float`. -/
inductive PyNum where
  | int : ℤ → PyNum
  | float : ℚ → PyNum
deriving DecidableEq

/-- Python `isinstance(n, int)`. -/
def PyNum.isInt : PyNum → Bool
  | .int _ => true
  | .float _ => false

/-- Numeric value of the argument, for the `n < 0` comparison. -/
def PyNum.toRat : PyNum → ℚ
  | .int n => (n : ℚ)
  | .float q => q

/-- The array size actually used (reached only for nonnegative ints). -/
def PyNum.size : PyNum → ℕ
  | .int n => n.toNat
  | .float _ => 0

/-- A raised Python exception. -/
inductive PyError where
  | valueError : String → PyError
deriving DecidableEq

/-- Source `simulate_data(n)`: raise
`ValueError('n must be a positive integer')` when `n < 0 or not
isinstance(n, int)`, otherwise build the frame and return
`df[['Y', 'A', 'W', 'L']]`. -/
def simulate_data (s : Streams) (nv : PyNum) : Except PyError (List (String × List ℚ)) :=
  if decide (nv.toRat < 0) || !nv.isInt then
    .error (PyError.valueError "n must be a positive integer")
  else
    .ok (selectCols (simDF s nv.size) ["Y", "A", "W", "L"])

/- ## Part 3: row resampling (`df.sample(n=df.shape[0], replace=True)`)

The random collaborator supplies the drawn row indices; `df.sample` with
`replace=True` maps each drawn index to the whole row at that index. -/

/-- Source `df.sample(n=..., replace=True)` given the realised index draws. -/
def dfSample {α : Type} (df : List α) (draws : List (Fin df.length)) : List α :=
  draws.map df.get

/- ## Part 4: the g-formula pipeline (modelled from the spec)

`TimeFixedGFormula` lives in the external zEpid library, not in this
repository, so the following definitions are modelled from the spec. -/

/-- Modelled from the spec: one record of the observation table — a
treatment indicator, an outcome, and the covariate values (tables are
restricted to modelled-field-complete records, per the complete-case rule). -/
structure Obs where
  treat : ℝ
  outcome : ℝ
  covs : List ℝ

/-- Modelled from the spec: the selectable family/link
(`normal` → identity link, `binomial` → logit link). -/
inductive Family where
  | normal
  | binomial
deriving DecidableEq

/-- Modelled from the spec: inverse link applied to a linear predictor. -/
noncomputable def linkInv : Family → ℝ → ℝ
  | .normal, x => x
  | .binomial, x => 1 / (1 + Real.exp (-x))

/-- Modelled from the spec: the expanded design row of a record —
intercept, treatment, covariates.  The outcome field is not part of it. -/
def designRow (o : Obs) : List ℝ := 1 :: o.treat :: o.covs

/-- Dot product of a coefficient vector with a design row. -/
noncomputable def dotList (xs ys : List ℝ) : ℝ :=
  (List.zipWith (fun x y => x * y) xs ys).sum

/-- Modelled from the spec: a fitted model — a coefficient vector aligned
with the expanded term list, plus the family/link used to fit it. -/
structure FittedModel where
  family : Family
  coefs : List ℝ

/-- Modelled from the spec: per-unit prediction — inverse link of the
linear predictor.  Reads only the design row, never the outcome. -/
noncomputable def predict (m : FittedModel) (o : Obs) : ℝ :=
  linkInv m.family (dotList m.coefs (designRow o))

/-- Modelled from the spec: a counterfactual policy — all-treated,
all-untreated, no-op (observed), or stochastic with realised draws `f`. -/
inductive Policy where
  | allTreat
  | allControl
  | observed
  | stoch : (ℕ → ℝ) → Policy

/-- Overwrite the treatment field of a record, touching nothing else. -/
def setTreat (a : ℝ) (o : Obs) : Obs := { o with treat := a }

/-- Apply a stochastic policy: row `i` gets realised treatment `f i`. -/
def applyStoch (f : ℕ → ℝ) : ℕ → List Obs → List Obs
  | _, [] => []
  | j, o :: t => setTreat (f j) o :: applyStoch f (j + 1) t

/-- Modelled from the spec: applying a policy overwrites the treatment
field of every record according to the policy and nothing else. -/
def applyPolicy : Policy → List Obs → List Obs
  | .allTreat, t => t.map (setTreat 1)
  | .allControl, t => t.map (setTreat 0)
  | .observed, t => t.map (fun o => setTreat o.treat o)
  | .stoch f, t => applyStoch f 0 t

/-- Arithmetic mean of a list of reals (numpy `mean`; 0 on the empty list). -/
noncomputable def listMeanR (xs : List ℝ) : ℝ := xs.sum / xs.length

/-- Modelled from the spec: the Counterfactual Standardizer — build the
policy-modified table, predict per unit, return the mean prediction. -/
noncomputable def standardize (m : FittedModel) (t : List Obs) (p : Policy) : ℝ :=
  listMeanR ((applyPolicy p t).map (predict m))

/-- The fitted model's in-sample mean prediction (predictions on the
unmodified table, averaged). -/
noncomputable def inSampleMeanPred (m : FittedModel) (t : List Obs) : ℝ :=
  listMeanR (t.map (predict m))

/-- Modelled from the spec: the Outcome Model Fitter hands the design
matrix and the response to the external GLM-fitting collaborator `collab`
and records the returned coefficient vector with the family. -/
def fitOutcomeModel (collab : List (List ℝ) → List ℝ → List ℝ)
    (fam : Family) (t : List Obs) : FittedModel :=
  { family := fam, coefs := collab (t.map designRow) (t.map (fun o => o.outcome)) }

/-- Modelled from the spec: the zEpid `TimeFixedGFormula` object — the
data it was constructed with, the fitted outcome model (absent until
`outcome_model` runs), and the `marginal_outcome` field mutated by `fit`. -/
structure TimeFixedGFormula where
  gf_data : List Obs
  fitModel : Option FittedModel
  marginal_outcome : Option ℝ

/-- Source `TimeFixedGFormula(df, ...)`: fresh object, nothing fitted yet. -/
def initGF (dfs : List Obs) : TimeFixedGFormula :=
  { gf_data := dfs, fitModel := none, marginal_outcome := none }

/-- Source `tfgf.outcome_model(...)`: fit the outcome model on the
object's data and store it. -/
def outcome_model (collab : List (List ℝ) → List ℝ → List ℝ)
    (fam : Family) (g : TimeFixedGFormula) : TimeFixedGFormula :=
  { g with fitModel := some (fitOutcomeModel collab fam g.gf_data) }

/-- Source `tfgf.fit(treatment=...)`: standardize under the policy and
overwrite the `marginal_outcome` field; the fitted model is not re-fit. -/
noncomputable def gfFit (p : Policy) (g : TimeFixedGFormula) : TimeFixedGFormula :=
  { g with marginal_outcome := g.fitModel.map (fun m => standardize m g.gf_data p) }

/-- Source bootstrap-loop body: fresh `TimeFixedGFormula` on the resample,
fit the outcome model, standardize under all-treated and all-untreated,
return the contrast. -/
noncomputable def bootstrapIteration (collab : List (List ℝ) → List ℝ → List ℝ)
    (fam : Family) (dfs : List Obs) : ℝ :=
  let g0 := outcome_model collab fam (initGF dfs)
  let g1 := gfFit Policy.allTreat g0
  let g2 := gfFit Policy.allControl g1
  (g1.marginal_outcome.getD 0) - (g2.marginal_outcome.getD 0)

/-- Source bootstrap loop: one contrast per resample, in order. -/
noncomputable def bootstrapEsts (collab : List (List ℝ) → List ℝ → List ℝ)
    (fam : Family) (resamples : List (List Obs)) : List ℝ :=
  resamples.map (bootstrapIteration collab fam)

/- ## Part 5: the bootstrap confidence-interval cell -/

/-- Source `np.std(ests)` under the `ddof=0` default: the mean of the
squared deviations from the mean (numpy's documented formula). -/
noncomputable def npVariance (xs : List ℝ) : ℝ :=
  listMeanR (xs.map (fun x => (x - listMeanR xs)^2))

/-- Source `np.std(ests)`: square root of the `ddof=0` variance. -/
noncomputable def npStd (xs : List ℝ) : ℝ := Real.sqrt (npVariance xs)

/-- Source `lcl = (rall - nall) - 1.96*se` with `se = np.std(ests)`. -/
noncomputable def bootLcl (rall nall : ℝ) (ests : List ℝ) : ℝ :=
  (rall - nall) - 1.96 * npStd ests

/-- Source `ucl = (rall - nall) + 1.96*se` with `se = np.std(ests)`. -/
noncomputable def bootUcl (rall nall : ℝ) (ests : List ℝ) : ℝ :=
  (rall - nall) + 1.96 * npStd ests

/-- The spec's empirical population standard deviation, written in the
mean-of-squares minus square-of-mean form. -/
noncomputable def popStdDevSpec (xs : List ℝ) : ℝ :=
  Real.sqrt ((xs.map (fun x => x^2)).sum / xs.length - (listMeanR xs)^2)

/-- Modelled from the spec: the error taxonomy of §7 — the Fitter failure
raised on a degenerate (empty or rank-deficient) sample. -/
inductive FitErr where
  | insufficientData
deriving DecidableEq

/-- The bootstrap `for` loop over a fallible per-resample pipeline, with
Python exception semantics: the first raised error propagates and aborts
the whole loop; otherwise the contrasts are collected in order. -/
def bootstrapLoopE {σ α : Type} (f : σ → Except FitErr α) :
    List σ → Except FitErr (List α)
  | [] => .ok []
  | r :: rs =>
    match f r with
    | .error e => .error e
    | .ok v =>
      match bootstrapLoopE f rs with
      | .error e => .error e
      | .ok vs => .ok (v :: vs)

/-- Source report cell: the printed quantities are the point estimate
`rall - nall` and the two confidence limits, nothing else. -/
noncomputable def finalReport (rall nall : ℝ) (ests : List ℝ) : ℝ × ℝ × ℝ :=
  (rall - nall, bootLcl rall nall ests, bootUcl rall nall ests)

/- ## Helper lemmas -/

/-- Overwriting the treatment field with its own value is the identity. -/
theorem setTreat_self (o : Obs) : setTreat o.treat o = o := rfl

/-- Entrywise value of the np.where recode head. -/
theorem recode_head (v : Option ℚ) :
    (if gt50 v then some (50:ℚ) else v) =
      (if le50 v then v else if gt50 v then some 50 else none) := by
  cases v with
  | none => simp [gt50, le50]
  | some q =>
    rcases le_or_lt q 50 with h | h
    · simp [gt50, le50, h, not_lt.2 h]
    · simp [gt50, le50, h, not_le.2 h]

/-- Entrywise value of the np.where recode as a capped value. -/
theorem recode_head_min (v : Option ℚ) :
    (if gt50 v then some (50:ℚ) else v) = Option.map (fun q => min q 50) v := by
  cases v with
  | none => simp [gt50]
  | some q =>
    rcases le_or_lt q 50 with h | h
    · simp [gt50, not_lt.2 h, min_eq_left h]
    · simp [gt50, h, min_eq_right h.le]

/-- Indexing a stochastically re-treated table. -/
theorem applyStoch_get? (f : ℕ → ℝ) :
    ∀ (t : List Obs) (j k : ℕ),
      (applyStoch f j t).get? k = (t.get? k).map (fun o => setTreat (f (j + k)) o) := by
  intro t
  induction t with
  | nil => intro j k; simp [applyStoch]
  | cons o tl ih =>
    intro j k
    cases k with
    | zero => simp [applyStoch]
    | succ k =>
      have h := ih (j + 1) k
      simp only [applyStoch, List.get?_cons_succ, h]
      have harith : j + 1 + k = j + (k + 1) := by omega
      rw [harith]

/-- A stochastic policy preserves the number of records. -/
theorem applyStoch_length (f : ℕ → ℝ) :
    ∀ (t : List Obs) (j : ℕ), (applyStoch f j t).length = t.length := by
  intro t
  induction t with
  | nil => intro j; rfl
  | cons o tl ih => intro j; simp [applyStoch, ih]

/- ## Claim theorems -/

/-- Claim C9: the two recoding idioms are equivalent — for every numeric
column (missing entries included), `np.where(c > 50, 50, c)` equals the
two masked `.loc` assignments entry by entry; both cap values above 50 at
50, pass values at most 50 through, and map a missing entry to a missing
entry (comparisons against a missing value are false for both `>` and `<=`). -/
theorem C9_recode_equivalence :
    ∀ c : List (Option ℚ),
      age2_numpy c = age2_pandas c ∧
      age2_numpy c = c.map (Option.map (fun q => min q 50)) := by
  intro c
  constructor
  · induction c with
    | nil => rfl
    | cons v t ih =>
      have hnp : age2_numpy (v :: t) =
          (if gt50 v then some 50 else v) :: age2_numpy t := by
        simp [age2_numpy]
      have hpd : age2_pandas (v :: t) =
          (if le50 v then v else if gt50 v then some 50 else none) :: age2_pandas t := by
        simp [age2_pandas, locAssign]
      rw [hnp, hpd, ih, recode_head]
  · induction c with
    | nil => rfl
    | cons v t ih =>
      simp only [age2_numpy, List.map_cons] at ih ⊢
      rw [recode_head_min, ih]

/-- Claim C2: resampling an N-row table with replacement returns exactly
N rows (when N indices are drawn, as `df.sample(n=df.shape[0],
replace=True)` does), every resampled record is a whole original record,
and position `k` of the resample is exactly the original row at the k-th
drawn index, so repeated indices yield repeated rows. -/
theorem C2_resample_whole_rows :
    ∀ {α : Type} (df : List α) (draws : List (Fin df.length)),
      draws.length = df.length →
      (dfSample df draws).length = df.length ∧
      (∀ x ∈ dfSample df draws, x ∈ df) ∧
      (∀ k : ℕ, (dfSample df draws).get? k = (draws.get? k).map df.get) := by
  intro α df draws h
  refine ⟨by simpa [dfSample] using h, ?_, ?_⟩
  · intro x hx
    rcases List.mem_map.1 hx with ⟨i, _, rfl⟩
    exact List.get_mem df i.1 i.2
  · intro k
    simp [dfSample, List.get?_map]

/-- Witness for C2 at a concrete 3-row table with the repeated draw list
`[0, 0, 1]`: the resample has 3 rows, all from the original, and the
repeated index produces the duplicated row `10`. -/
theorem C2_resample_whole_rows_witness :
    ([⟨0, by decide⟩, ⟨0, by decide⟩, ⟨1, by decide⟩] :
        List (Fin ([10, 20, 30] : List ℕ).length)).length =
      ([10, 20, 30] : List ℕ).length ∧
    (dfSample ([10, 20, 30] : List ℕ)
        [⟨0, by decide⟩, ⟨0, by decide⟩, ⟨1, by decide⟩]).length = 3 ∧
    (∀ x ∈ dfSample ([10, 20, 30] : List ℕ)
        [⟨0, by decide⟩, ⟨0, by decide⟩, ⟨1, by decide⟩], x ∈ [10, 20, 30]) ∧
    dfSample ([10, 20, 30] : List ℕ)
        [⟨0, by decide⟩, ⟨0, by decide⟩, ⟨1, by decide⟩] = [10, 10, 20] := by
  have h := C2_resample_whole_rows ([10, 20, 30] : List ℕ)
    [⟨0, by decide⟩, ⟨0, by decide⟩, ⟨1, by decide⟩] (by decide)
  exact ⟨by decide, h.1, h.2.1, by decide⟩

/-- Claim C3: applying any counterfactual policy (all-treated,
all-untreated, no-op, stochastic) preserves the number of records and
changes at most the treatment field — the outcome and covariates of every
record are unchanged — and prediction never reads the outcome field. -/
theorem C3_policy_touches_only_treatment :
    ∀ (p : Policy) (t : List Obs),
      (applyPolicy p t).length = t.length ∧
      (∀ k : ℕ, ((applyPolicy p t).get? k).map (fun o => (o.outcome, o.covs)) =
        (t.get? k).map (fun o => (o.outcome, o.covs))) ∧
      (∀ (m : FittedModel) (o : Obs) (y : ℝ),
        predict m { o with outcome := y } = predict m o) := by
  intro p t
  refine ⟨?_, ?_, ?_⟩
  · cases p <;> simp [applyPolicy, applyStoch_length]
  · intro k
    have hmap : ∀ (g : Obs → Obs), (∀ o, (g o).outcome = o.outcome) →
        (∀ o, (g o).covs = o.covs) →
        ((t.map g).get? k).map (fun o => (o.outcome, o.covs)) =
          (t.get? k).map (fun o => (o.outcome, o.covs)) := by
      intro g h1 h2
      rw [List.get?_map]
      cases t.get? k with
      | none => rfl
      | some o => simp [h1, h2]
    cases p with
    | allTreat => exact hmap _ (fun o => rfl) (fun o => rfl)
    | allControl => exact hmap _ (fun o => rfl) (fun o => rfl)
    | observed => exact hmap _ (fun o => rfl) (fun o => rfl)
    | stoch f =>
      rw [show applyPolicy (Policy.stoch f) t = applyStoch f 0 t from rfl,
        applyStoch_get?]
      cases t.get? k with
      | none => rfl
      | some o => rfl
  · intro m o y
    rfl

/-- Claim C7: standardizing under the no-op policy (treatment left at its
observed values) returns exactly the arithmetic mean of the fitted
model's in-sample per-unit predictions. -/
theorem C7_noop_is_in_sample_mean :
    ∀ (m : FittedModel) (t : List Obs),
      standardize m t Policy.observed = inSampleMeanPred m t := by
  intro m t
  have h : applyPolicy Policy.observed t = t := by
    simp [applyPolicy, setTreat_self]
  simp [standardize, inSampleMeanPred, h]

/-- Claim C4: `fit` (a Standardizer evaluation) never changes the fitted
outcome model — in particular two successive evaluations under
all-treated then all-untreated leave it intact — the data is untouched,
`outcome_model` stores exactly the model fitted on the object's own data,
and each bootstrap iteration's contrast depends only on its own resample,
so no fitted coefficients are shared across resamples. -/
theorem C4_fitted_model_immutable :
    ∀ (collab : List (List ℝ) → List ℝ → List ℝ) (fam : Family)
      (p p' : Policy) (g : TimeFixedGFormula) (dfs : List Obs)
      (rs rs' : List (List Obs)) (i : ℕ),
      (gfFit p g).fitModel = g.fitModel ∧
      (gfFit p g).gf_data = g.gf_data ∧
      (gfFit p' (gfFit p g)).fitModel = g.fitModel ∧
      (outcome_model collab fam (initGF dfs)).fitModel =
        some (fitOutcomeModel collab fam dfs) ∧
      (rs.get? i = rs'.get? i →
        (bootstrapEsts collab fam rs).get? i = (bootstrapEsts collab fam rs').get? i) := by
  intro collab fam p p' g dfs rs rs' i
  refine ⟨rfl, rfl, rfl, rfl, ?_⟩
  intro h
  simp only [bootstrapEsts, List.get?_map, h]

/-- Witness for C4 at concrete arguments (trivial collaborator, empty
table, all-treated then all-untreated, equal singleton resample lists). -/
theorem C4_fitted_model_immutable_witness :
    (gfFit Policy.allControl (gfFit Policy.allTreat
        (outcome_model (fun _ _ => [0]) Family.normal (initGF [])))).fitModel =
      (outcome_model (fun _ _ => [0]) Family.normal (initGF [])).fitModel ∧
    (bootstrapEsts (fun _ _ => [0]) Family.normal [[]]).get? 0 =
      (bootstrapEsts (fun _ _ => [0]) Family.normal [[]]).get? 0 := by
  have h := C4_fitted_model_immutable (fun _ _ => [0]) Family.normal
    Policy.allTreat Policy.allControl
    (outcome_model (fun _ _ => [0]) Family.normal (initGF [])) [] [[]] [[]] 0
  exact ⟨h.2.2.1, h.2.2.2.2 rfl⟩

/-- Claim C6: fitting and standardization are deterministic — two runs of
the Fitter on the same table (with the same collaborator and family)
yield the same coefficient vector, and two runs of the Standardizer on
the same fitted model, table and policy yield the same marginal outcome;
neither definition consumes any source of randomness. -/
theorem C6_fit_standardize_deterministic :
    ∀ (collab : List (List ℝ) → List ℝ → List ℝ) (fam : Family)
      (t t' : List Obs), t = t' →
      fitOutcomeModel collab fam t = fitOutcomeModel collab fam t' ∧
      (∀ (m : FittedModel) (p : Policy) (u u' : List Obs), u = u' →
        standardize m u p = standardize m u' p) := by
  intro collab fam t t' ht
  subst ht
  exact ⟨rfl, fun m p u u' hu => by rw [hu]⟩

/-- Witness for C6 at a concrete one-record table and model. -/
theorem C6_fit_standardize_deterministic_witness :
    fitOutcomeModel (fun _ _ => [0]) Family.normal [⟨1, 2, [3]⟩] =
      fitOutcomeModel (fun _ _ => [0]) Family.normal [⟨1, 2, [3]⟩] ∧
    standardize ⟨Family.normal, [1, 1, 1]⟩ [⟨1, 2, [3]⟩] Policy.allTreat =
      standardize ⟨Family.normal, [1, 1, 1]⟩ [⟨1, 2, [3]⟩] Policy.allTreat := by
  have h := C6_fit_standardize_deterministic (fun _ _ => [0]) Family.normal
    [⟨1, 2, [3]⟩] [⟨1, 2, [3]⟩] rfl
  exact ⟨h.1, h.2 ⟨Family.normal, [1, 1, 1]⟩ Policy.allTreat [⟨1, 2, [3]⟩] [⟨1, 2, [3]⟩] rfl⟩

/-- Column selection of the simulated frame, computed. -/
theorem selectCols_simDF (s : Streams) (n : ℕ) :
    selectCols (simDF s n) ["Y", "A", "W", "L"] =
      [("Y", ycol s n), ("A", acol s n), ("W", wcol s n), ("L", lcol s n)] := by
  rfl

/-- Claim C8: the simulated observed outcome satisfies counterfactual
consistency — the treatment indicator is 0 or 1, and
`Y = A*Y1 + (1-A)*Y0` equals `Y1` exactly when `A = 1` and `Y0` exactly
when `A = 0` — and the systematic parts of `Y1` and `Y0` differ by the
constant treatment effect `-10`. -/
theorem C8_counterfactual_consistency :
    ∀ (s : Streams) (n i : ℕ), i < n →
      (ycol s n).get? i = some (yObs (bit (s.a i))
        (y1val (bit (s.w i)) (s.l i) (s.e1 i))
        (y0val (bit (s.w i)) (s.l i) (s.e0 i))) ∧
      (∀ b : Bool, bit b = 0 ∨ bit b = 1) ∧
      (∀ a y1 y0 : ℚ, (a = 1 → yObs a y1 y0 = y1) ∧ (a = 0 → yObs a y1 y0 = y0)) ∧
      (∀ w l e : ℚ, y1val w l e - y0val w l e = -10) := by
  intro s n i hi
  refine ⟨?_, ?_, ?_, ?_⟩
  · simp only [ycol, List.get?_map]
    rw [List.get?_range hi]
    rfl
  · intro b; cases b
    · exact Or.inl rfl
    · exact Or.inr rfl
  · intro a y1 y0
    constructor
    · intro h; subst h; unfold yObs; ring
    · intro h; subst h; unfold yObs; ring
  · intro w l e; unfold y1val y0val; ring

/-- Witness for C8 on the constant stream (`W = 1`, `L = 1`, `A = 1`,
zero noise) at row 0 of a 1-row simulation. -/
theorem C8_counterfactual_consistency_witness :
    (ycol ⟨fun _ => true, fun _ => 1, fun _ => true, fun _ => 0, fun _ => 0⟩ 1).get? 0 =
      some (yObs (bit true) (y1val (bit true) 1 0) (y0val (bit true) 1 0)) ∧
    y1val 1 1 0 - y0val 1 1 0 = -10 := by
  have h := C8_counterfactual_consistency
    ⟨fun _ => true, fun _ => 1, fun _ => true, fun _ => 0, fun _ => 0⟩ 1 0 (by decide)
  exact ⟨h.1, h.2.2.2 1 1 0⟩

/-- Claim C10: `simulate_data` raises `ValueError` exactly when its
argument is negative or not an integer; every nonnegative integer
argument — zero included, despite the message text — is accepted and
yields the frame with columns `Y`, `A`, `W`, `L` in that order, with one
row per generated index (so `n = 0` gives the empty table). -/
theorem C10_simulate_data_validation :
    ∀ (s : Streams) (nv : PyNum),
      ((∃ msg, simulate_data s nv = .error (PyError.valueError msg)) ↔
        (nv.toRat < 0 ∨ nv.isInt = false)) ∧
      (simulate_data s (PyNum.int 0) =
        .ok [("Y", []), ("A", []), ("W", []), ("L", [])]) ∧
      (∀ n : ℤ, 0 ≤ n →
        simulate_data s (PyNum.int n) =
          .ok [("Y", ycol s n.toNat), ("A", acol s n.toNat),
               ("W", wcol s n.toNat), ("L", lcol s n.toNat)]) := by
  intro s nv
  have hok : ∀ n : ℤ, 0 ≤ n →
      simulate_data s (PyNum.int n) =
        .ok [("Y", ycol s n.toNat), ("A", acol s n.toNat),
             ("W", wcol s n.toNat), ("L", lcol s n.toNat)] := by
    intro n hn
    have h1 : ¬((PyNum.int n).toRat < 0) := by
      simp only [PyNum.toRat, not_lt]
      exact_mod_cast hn
    simp [simulate_data, h1, PyNum.isInt, PyNum.size, selectCols_simDF]
  refine ⟨?_, ?_, hok⟩
  · constructor
    · rintro ⟨msg, hm⟩
      by_cases hlt : nv.toRat < 0
      · exact Or.inl hlt
      by_cases hint : nv.isInt = true
      · exfalso
        simp [simulate_data, hlt, hint] at hm
      · exact Or.inr (by simpa using hint)
    · intro h
      refine ⟨"n must be a positive integer", ?_⟩
      rcases h with h | h
      · simp [simulate_data, h]
      · simp [simulate_data, h]
  · have h0 := hok 0 le_rfl
    simpa [ycol, acol, wcol, lcol] using h0

/-- Expansion of a sum of squared deviations. -/
theorem sum_map_sq_sub (c : ℝ) :
    ∀ xs : List ℝ,
      (xs.map (fun x => (x - c)^2)).sum =
        (xs.map (fun x => x^2)).sum - 2*c*xs.sum + xs.length * c^2 := by
  intro xs
  induction xs with
  | nil => simp
  | cons a t ih =>
    simp only [List.map_cons, List.sum_cons, List.length_cons, ih]
    push_cast
    ring

/-- The numpy `ddof=0` variance in mean-of-squares minus square-of-mean form. -/
theorem npVariance_eq (xs : List ℝ) :
    npVariance xs = (xs.map (fun x => x^2)).sum / xs.length - (listMeanR xs)^2 := by
  rcases eq_or_ne xs.length 0 with h | h
  · have hx : xs = [] := List.length_eq_zero.mp h
    subst hx
    simp [npVariance, listMeanR]
  · have hn : (xs.length : ℝ) ≠ 0 := Nat.cast_ne_zero.mpr h
    unfold npVariance listMeanR
    rw [List.length_map, sum_map_sq_sub]
    field_simp
    ring

/-- `np.std` agrees with the spec's population standard deviation. -/
theorem npStd_eq_popStdDevSpec (xs : List ℝ) : npStd xs = popStdDevSpec xs := by
  unfold npStd popStdDevSpec
  rw [npVariance_eq]

/-- Concrete evaluation: the population sd of `[1, 3]` is 1. -/
theorem npStd_pair : npStd [(1:ℝ), 3] = 1 := by
  have h : npVariance [(1:ℝ), 3] = 1 := by
    simp only [npVariance, listMeanR, List.map_cons, List.map_nil, List.sum_cons,
      List.sum_nil, List.length_cons, List.length_nil, List.length_map]
    norm_num
  rw [npStd, h, Real.sqrt_one]

/-- Concrete evaluation: the population sd of `[1, 3, 1, 3]` is 1. -/
theorem npStd_quad : npStd [(1:ℝ), 3, 1, 3] = 1 := by
  have h : npVariance [(1:ℝ), 3, 1, 3] = 1 := by
    simp only [npVariance, listMeanR, List.map_cons, List.map_nil, List.sum_cons,
      List.sum_nil, List.length_cons, List.length_nil, List.length_map]
    norm_num
  rw [npStd, h, Real.sqrt_one]

/-- Claim C1: the reported 95% interval is the full-sample point estimate
`rall - nall` plus and minus `1.96` times the population (`ddof=0`,
`np.std`) standard deviation of the replicate list; the interval is
centered on the full-sample estimate, and the replicates enter only
through that standard deviation. -/
theorem C1_bootstrap_interval :
    ∀ (rall nall : ℝ) (ests : List ℝ),
      bootLcl rall nall ests = (rall - nall) - 1.96 * popStdDevSpec ests ∧
      bootUcl rall nall ests = (rall - nall) + 1.96 * popStdDevSpec ests ∧
      (bootLcl rall nall ests + bootUcl rall nall ests) / 2 = rall - nall ∧
      (∀ ests' : List ℝ, npStd ests' = npStd ests →
        bootLcl rall nall ests' = bootLcl rall nall ests ∧
        bootUcl rall nall ests' = bootUcl rall nall ests) := by
  intro rall nall ests
  refine ⟨?_, ?_, ?_, ?_⟩
  · unfold bootLcl
    rw [npStd_eq_popStdDevSpec]
  · unfold bootUcl
    rw [npStd_eq_popStdDevSpec]
  · unfold bootLcl bootUcl
    ring
  · intro ests' h
    unfold bootLcl bootUcl
    rw [h]
    exact ⟨rfl, rfl⟩

/-- Witness for C1 at the concrete replicate lists `[1, 3]` and
`[1, 3, 1, 3]` (equal population sd 1) with full-sample means 5 and 3. -/
theorem C1_bootstrap_interval_witness :
    npStd [(1:ℝ), 3, 1, 3] = npStd [(1:ℝ), 3] ∧
    bootLcl 5 3 [(1:ℝ), 3, 1, 3] = bootLcl 5 3 [(1:ℝ), 3] ∧
    (bootLcl 5 3 [(1:ℝ), 3] + bootUcl 5 3 [(1:ℝ), 3]) / 2 = 5 - 3 := by
  have hstd : npStd [(1:ℝ), 3, 1, 3] = npStd [(1:ℝ), 3] := by
    rw [npStd_pair, npStd_quad]
  have h := C1_bootstrap_interval 5 3 [(1:ℝ), 3]
  exact ⟨hstd, (h.2.2.2 [(1:ℝ), 3, 1, 3] hstd).1, h.2.2.1⟩

/-- Counterexample to claim C5: two bootstrap runs whose replicate lists
have different lengths — 2 versus 4 contributing resamples — produce
identical final reports, so the final report cannot state how many of the
requested resamples contributed to the interval. -/
theorem C5_report_has_no_resample_count :
    finalReport 5 3 [(1:ℝ), 3] = finalReport 5 3 [(1:ℝ), 3, 1, 3] ∧
    ([(1:ℝ), 3]).length ≠ ([(1:ℝ), 3, 1, 3]).length := by
  constructor
  · unfold finalReport bootLcl bootUcl
    rw [npStd_pair, npStd_quad]
  · simp

/-- Claim C5 as amended: a Fitter failure in any resample propagates and
aborts the whole bootstrap loop (Python exception semantics — no
exclude-and-count policy), and the final report is determined by the
point estimate and the replicate standard deviation alone, so it never
states how many resamples contributed. -/
theorem C5_bootstrap_abort_policy :
    (∀ {σ α : Type} (f : σ → Except FitErr α) (rs : List σ),
      (∃ r ∈ rs, ∃ e, f r = .error e) →
      ∃ e, bootstrapLoopE f rs = .error e) ∧
    (∀ (rall nall : ℝ) (ests ests' : List ℝ), npStd ests = npStd ests' →
      finalReport rall nall ests = finalReport rall nall ests') := by
  constructor
  · intro σ α f rs
    induction rs with
    | nil =>
      rintro ⟨r, hr, _⟩
      exact absurd hr (List.not_mem_nil r)
    | cons a t ih =>
      rintro ⟨r, hr, e, he⟩
      rcases List.mem_cons.1 hr with rfl | hrt
      · exact ⟨e, by simp [bootstrapLoopE, he]⟩
      · cases hfa : f a with
        | error e2 => exact ⟨e2, by simp [bootstrapLoopE, hfa]⟩
        | ok v =>
          rcases ih ⟨r, hrt, e, he⟩ with ⟨e3, he3⟩
          exact ⟨e3, by simp [bootstrapLoopE, hfa, he3]⟩
  · intro rall nall ests ests' h
    unfold finalReport bootLcl bootUcl
    rw [h]

/-- Witness for the amended C5: a three-resample run whose middle
resample fails aborts with an error. -/
theorem C5_bootstrap_abort_policy_witness :
    (∃ r ∈ [(1:ℕ), 0, 2], ∃ e,
      (fun k => if k = 0 then (Except.error FitErr.insufficientData : Except FitErr ℚ)
        else Except.ok 1) r = .error e) ∧
    (∃ e, bootstrapLoopE
      (fun k => if k = 0 then (Except.error FitErr.insufficientData : Except FitErr ℚ)
        else Except.ok 1) [(1:ℕ), 0, 2] = .error e) := by
  have hin : ∃ r ∈ [(1:ℕ), 0, 2], ∃ e,
      (fun k => if k = 0 then (Except.error FitErr.insufficientData : Except FitErr ℚ)
        else Except.ok 1) r = .error e := by
    refine ⟨0, by simp, FitErr.insufficientData, ?_⟩
    rfl
  exact ⟨hin, C5_bootstrap_abort_policy.1 _ _ hin⟩

/-- Witness for C10: a 1-row simulation on the constant stream is
accepted and returns the four columns in order. -/
theorem C10_simulate_data_validation_witness :
    (0:ℤ) ≤ 1 ∧
    simulate_data ⟨fun _ => true, fun _ => 1, fun _ => true, fun _ => 0, fun _ => 0⟩
        (PyNum.int 1) =
      .ok [("Y", ycol ⟨fun _ => true, fun _ => 1, fun _ => true, fun _ => 0, fun _ => 0⟩
              (1:ℤ).toNat),
           ("A", acol ⟨fun _ => true, fun _ => 1, fun _ => true, fun _ => 0, fun _ => 0⟩
              (1:ℤ).toNat),
           ("W", wcol ⟨fun _ => true, fun _ => 1, fun _ => true, fun _ => 0, fun _ => 0⟩
              (1:ℤ).toNat),
           ("L", lcol ⟨fun _ => true, fun _ => 1, fun _ => true, fun _ => 0, fun _ => 0⟩
              (1:ℤ).toNat)] := by
  have h := C10_simulate_data_validation
    ⟨fun _ => true, fun _ => 1, fun _ => true, fun _ => 0, fun _ => 0⟩ (PyNum.int 1)
  exact ⟨by decide, h.2.2 1 (by decide)⟩
